import Mathlib

/-!
Shallow embedding of the CIFAR-10 classification service
(src/backend/app.py, src/api/index.py, src/main.py).

External collaborators (PIL decoding, the pretrained torch model, the
filesystem) are modelled as oracles: per-image outcomes of the fallible
steps are `Except String` values carried with each uploaded file, and the
filesystem is an explicit listing of the output root.  Everything the
repository's own code does — the label table, Python list indexing, the
try/except result shaping in `predict_image`, the batch loop with its
empty-filename skip and class counting, the normalization arithmetic, and
the download / session-listing endpoints — is translated directly from the
source.
-/

namespace Cifar

/-- The fixed CIFAR-10 label table, `CIFAR10_CLASSES` in
src/backend/app.py lines 26-29 and src/api/index.py lines 17-20
(src/main.py's `labels` list is identical). -/
def CIFAR10_CLASSES : List String :=
  ["airplane", "automobile", "bird", "cat", "deer",
   "dog", "frog", "horse", "ship", "truck"]

/-- Python list subscript semantics, as in `CIFAR10_CLASSES[predicted_idx.item()]`:
a nonnegative index counts from the front, a negative index counts from the
back (`l[i]` is `l[len(l)+i]`), and any other index raises IndexError. -/
def pyGetItem (l : List String) (i : Int) : Except String String :=
  let j : Int := if i < 0 then i + l.length else i
  if 0 ≤ j then
    match l.get? j.toNat with
    | some v => Except.ok v
    | none => Except.error "list index out of range"
  else
    Except.error "list index out of range"

/-- Lookup of a class name in the label table by integer index, the
expression `CIFAR10_CLASSES[predicted_idx.item()]` of both predict_image
variants. -/
def labelOf (i : Int) : Except String String :=
  pyGetItem CIFAR10_CLASSES i

/-- The per-image result dictionary built by `predict_image`.  `klass`
stands for the Python key `"class"`; fields absent from a given source
dictionary stay `none`. -/
structure ClassificationResult where
  filename : String
  klass : String
  confidence : Option ℚ := none
  error : Option String := none
  saved_path : Option String := none
deriving Repr, DecidableEq

/-- Outcomes of the external fallible steps of one image's pipeline, in the
order the `try` block of `predict_image` runs them: `Image.open` plus the
RGB conversion, the `transform` application, the model forward pass together
with `torch.max` (yielding the raw predicted index and its softmax
probability), and `os.makedirs` + `image.save`.  Each may raise, modelled as
`Except String`. -/
structure ImageEnv where
  decode : Except String Unit
  preprocess : Except String Unit
  infer : Except String (Int × ℚ)
  save : Except String Unit
deriving Repr

/-- The output directory of src/backend/app.py line 22. -/
def OUTPUT_DIR : String := "classified_images"

/-- Python's `round(x, 2)` on an exact rational: round half to even at two
decimal places. -/
def pyRound2 (q : ℚ) : ℚ :=
  let s := q * 100
  let f : Int := Int.floor s
  let r := s - f
  let k : Int :=
    if r < 1/2 then f
    else if 1/2 < r then f + 1
    else if f % 2 = 0 then f else f + 1
  (k : ℚ) / 100

/-- The body of the `try` block of `predict_image` in src/backend/app.py
lines 65-98: decode, preprocess, infer, look the predicted index up in the
label table, save the image under `OUTPUT_DIR/session_id/class/filename`,
and return the class together with the save path.  The first step to raise
short-circuits with its message, exactly as an exception leaves the block. -/
def imagePipelineBackend (env : ImageEnv) (filename session_id : String) :
    Except String (String × String) :=
  match env.decode with
  | Except.error e => Except.error e
  | Except.ok _ =>
    match env.preprocess with
    | Except.error e => Except.error e
    | Except.ok _ =>
      match env.infer with
      | Except.error e => Except.error e
      | Except.ok (idx, _) =>
        match labelOf idx with
        | Except.error e => Except.error e
        | Except.ok cls =>
          match env.save with
          | Except.error e => Except.error e
          | Except.ok _ =>
            Except.ok (cls, OUTPUT_DIR ++ "/" ++ session_id ++ "/" ++ cls ++ "/" ++ filename)

/-- The body of the `try` block of `predict_image` in src/api/index.py
lines 60-87: decode, preprocess, infer, look the index up, and return the
class with the confidence `round(prob * 100, 2)`; no save step. -/
def imagePipelineApi (env : ImageEnv) : Except String (String × ℚ) :=
  match env.decode with
  | Except.error e => Except.error e
  | Except.ok _ =>
    match env.preprocess with
    | Except.error e => Except.error e
    | Except.ok _ =>
      match env.infer with
      | Except.error e => Except.error e
      | Except.ok (idx, conf) =>
        match labelOf idx with
        | Except.error e => Except.error e
        | Except.ok cls => Except.ok (cls, pyRound2 (conf * 100))

/-- predict_image of src/backend/app.py lines 53-105: on success the result
carries the class and saved path; the `except` clause turns any raised
message into `class="error"` with the message in `error`. -/
def predict_image_backend (env : ImageEnv) (filename session_id : String) :
    ClassificationResult :=
  match imagePipelineBackend env filename session_id with
  | Except.ok (cls, path) =>
    { filename := filename, klass := cls, saved_path := some path }
  | Except.error e =>
    { filename := filename, klass := "error", error := some e }

/-- predict_image of src/api/index.py lines 49-94: on success the result
carries the class and rounded confidence percentage; the `except` clause
turns any raised message into `class="error"` with the message in `error`. -/
def predict_image_api (env : ImageEnv) (filename : String) :
    ClassificationResult :=
  match imagePipelineApi env with
  | Except.ok (cls, conf) =>
    { filename := filename, klass := cls, confidence := some conf }
  | Except.error e =>
    { filename := filename, klass := "error", error := some e }

/-- One uploaded multipart file: its filename and the oracle outcomes of the
external steps on its bytes. -/
structure UploadedFile where
  filename : String
  env : ImageEnv

/-- A file counts toward the batch iff its filename is non-empty
(the `if file.filename == '': continue` guard of both predict loops). -/
def nonEmptyName (f : UploadedFile) : Bool := !(f.filename == "")

/-- Python `dict.get(k, 0)` on the insertion-ordered `class_counts` dict,
modelled as an association list. -/
def dictGet : List (String × Nat) → String → Nat
  | [], _ => 0
  | p :: rest, k => if p.1 = k then p.2 else dictGet rest k

/-- Python `d[k] = v`: overwrite the entry if the key is present, else
append it. -/
def dictSet : List (String × Nat) → String → Nat → List (String × Nat)
  | [], k, v => [(k, v)]
  | p :: rest, k, v => if p.1 = k then (k, v) :: rest else p :: dictSet rest k v

/-- The class-count update of both predict loops:
`if result.get('class') != 'error': class_counts[cls] = class_counts.get(cls, 0) + 1`. -/
def updateCounts (counts : List (String × Nat)) (r : ClassificationResult) :
    List (String × Nat) :=
  if r.klass ≠ "error" then dictSet counts r.klass (dictGet counts r.klass + 1)
  else counts

/-- The `for file in files` loop shared verbatim by both predict endpoints
(src/backend/app.py lines 134-147, src/api/index.py lines 118-131),
parameterized by the per-image call: skip empty filenames, append each
result, and update the class counts for non-error results. -/
def batchLoop (piFn : UploadedFile → ClassificationResult) :
    List UploadedFile → List ClassificationResult → List (String × Nat) →
    List ClassificationResult × List (String × Nat)
  | [], results, counts => (results, counts)
  | f :: rest, results, counts =>
    if f.filename == "" then batchLoop piFn rest results counts
    else
      let r := piFn f
      batchLoop piFn rest (results ++ [r]) (updateCounts counts r)

/-- The shared request-level shape of both predict endpoints: 400 when the
file list is empty, otherwise run the loop with empty accumulators. -/
def runPredict (piFn : UploadedFile → ClassificationResult)
    (files : List UploadedFile) :
    Except (Nat × String) (List ClassificationResult × List (String × Nat)) :=
  if files.length = 0 then Except.error (400, "No images provided")
  else Except.ok (batchLoop piFn files [] [])

/-- The JSON body both predict endpoints return on success. -/
structure BatchResult where
  results : List ClassificationResult
  class_counts : List (String × Nat)
  total_images : Nat
  session_id : Option String
deriving Repr, DecidableEq

/-- The per-image call of the backend predict loop,
`predict_image(image_bytes, file.filename, session_id)`. -/
def piBackend (session_id : String) (f : UploadedFile) : ClassificationResult :=
  predict_image_backend f.env f.filename session_id

/-- The per-image call of the serverless predict loop,
`predict_image(image_bytes, file.filename)`. -/
def piApi (f : UploadedFile) : ClassificationResult :=
  predict_image_api f.env f.filename

/-- The /predict endpoint of src/backend/app.py lines 108-154:
`total_images` is `len(results)` and the generated session id is echoed. -/
def predictBackend (files : List UploadedFile) (session_id : String) :
    Except (Nat × String) BatchResult :=
  match runPredict (piBackend session_id) files with
  | Except.error e => Except.error e
  | Except.ok rc =>
    Except.ok { results := rc.1, class_counts := rc.2,
                total_images := rc.1.length, session_id := some session_id }

/-- The /api/predict endpoint of src/api/index.py lines 96-137: identical
loop, no session id. -/
def predictApi (files : List UploadedFile) :
    Except (Nat × String) BatchResult :=
  match runPredict piApi files with
  | Except.error e => Except.error e
  | Except.ok rc =>
    Except.ok { results := rc.1, class_counts := rc.2,
                total_images := rc.1.length, session_id := none }

/-- Sum of the values of the `class_counts` dict. -/
def sumValues (d : List (String × Nat)) : Nat := (d.map Prod.snd).sum

/-! The preprocessing pipeline (`transform` in src/backend/app.py lines
43-50, src/api/index.py lines 40-47, src/main.py lines 15-20).  A decoded
RGB image already at the target 32×32 size is a grid of 8-bit channel
values; `Resize((32, 32))` is the identity on such an image, `ToTensor`
divides each channel value by 255, and `Normalize` applies the per-channel
affine map.  Exact rationals stand in for the IEEE floats; the claims
compare outputs only against the same rational arithmetic. -/

/-- A decoded 3-channel RGB image of size 32×32: channel, row, column to an
8-bit intensity. -/
def Image32 : Type := Fin 3 → Fin 32 → Fin 32 → Nat

/-- A 3×32×32 tensor of rationals. -/
def Tensor32 : Type := Fin 3 → Fin 32 → Fin 32 → ℚ

/-- The all-zero (black) RGB 32×32 image. -/
def zeroImage : Image32 := fun _ _ _ => 0

/-- The `ToTensor()` step: scale 8-bit channel values by 1/255 into [0,1]. -/
def toTensor (img : Image32) : Tensor32 := fun c i j => (img c i j : ℚ) / 255

/-- The `Normalize(mean, std)` step: `output[c] = (input[c] - mean[c]) / std[c]`. -/
def normalizeWith (m s : Fin 3 → ℚ) (t : Tensor32) : Tensor32 :=
  fun c i j => (t c i j - m c) / s c

/-- The normalization mean [0.4914, 0.4822, 0.4465], identical in all three
source files. -/
def meanC (c : Fin 3) : ℚ :=
  if c.val = 0 then 4914/10000 else if c.val = 1 then 4822/10000 else 4465/10000

/-- The std [0.2023, 0.1994, 0.2010] of src/backend/app.py and
src/api/index.py. -/
def stdBackend (c : Fin 3) : ℚ :=
  if c.val = 0 then 2023/10000 else if c.val = 1 then 1994/10000 else 2010/10000

/-- The std [0.2470, 0.2435, 0.2616] of src/main.py line 19. -/
def stdMain (c : Fin 3) : ℚ :=
  if c.val = 0 then 2470/10000 else if c.val = 1 then 2435/10000 else 2616/10000

/-- The composed `transform` of src/backend/app.py and src/api/index.py on a
32×32 RGB image. -/
def transformBackend (img : Image32) : Tensor32 :=
  normalizeWith meanC stdBackend (toTensor img)

/-- The composed `transform` of src/main.py on a 32×32 RGB image. -/
def transformMain (img : Image32) : Tensor32 :=
  normalizeWith meanC stdMain (toTensor img)

/-- The bytes-to-tensor pipeline: PIL decoding, RGB conversion and the
deterministic resize are external, passed as an explicit function from the
byte buffer to a decoded 32×32 image (or a decode error); the repository's
`transform` then produces the tensor.  No other input reaches the pipeline:
the source holds no mutable state and draws no randomness. -/
def normalizeBytes (decode : List Nat → Except String Image32)
    (bytes : List Nat) : Except String Tensor32 :=
  (decode bytes).map transformBackend

/-! The lazy model load of src/api/index.py lines 22-37.  `get_model` reads
the global `_model`, and when it is `None` runs `torch.hub.load` and
assigns the result — an unguarded check-then-act.  Two callers in the same
process are modelled as two threads, each at a program counter: `start`
(about to evaluate `_model is None`), `loading` (saw `None`, about to run
the load and the assignment), `done` (returned).  A schedule is the list of
interleaving choices; `loads` counts executions of `torch.hub.load`. -/

/-- Program counter of one caller inside `get_model`. -/
inductive ThreadPC
  | start
  | loading
  | done
deriving DecidableEq, Repr

/-- Shared state of the process: the `_model` global, the number of
`torch.hub.load` executions so far, and each caller's position. -/
structure LoadState where
  mem : Option Unit
  loads : Nat
  pc1 : ThreadPC
  pc2 : ThreadPC
deriving DecidableEq, Repr

/-- One atomic step of `get_model` by the chosen thread (`false` = thread 1,
`true` = thread 2): at `start` it evaluates `_model is None` and branches;
at `loading` it runs the load and assigns `_model`; at `done` it is
finished. -/
def stepGetModel (s : LoadState) (t : Bool) : LoadState :=
  match (if t then s.pc2 else s.pc1) with
  | ThreadPC.start =>
    let pc' := match s.mem with
      | none => ThreadPC.loading
      | some _ => ThreadPC.done
    if t then { s with pc2 := pc' } else { s with pc1 := pc' }
  | ThreadPC.loading =>
    let s' := { s with mem := some (), loads := s.loads + 1 }
    if t then { s' with pc2 := ThreadPC.done } else { s' with pc1 := ThreadPC.done }
  | ThreadPC.done => s

/-- Run `get_model` for both callers under the given interleaving. -/
def runSchedule (sched : List Bool) (s : LoadState) : LoadState :=
  sched.foldl stepGetModel s

/-- Fresh process: `_model is None`, no loads yet, both callers about to
enter `get_model`. -/
def initLoadState : LoadState :=
  { mem := none, loads := 0, pc1 := ThreadPC.start, pc2 := ThreadPC.start }

/-! The session filesystem (src/backend/app.py).  The output root
`classified_images` is a listing of named entries, each a directory or a
plain file. -/

/-- One entry directly under the output root. -/
structure FsEntry where
  name : String
  isDir : Bool
deriving DecidableEq, Repr

/-- The listing of the output root. -/
abbrev Fs : Type := List FsEntry

/-- Python `os.path.exists(os.path.join(OUTPUT_DIR, n))`: true when an entry
of either kind with that name exists. -/
def pathExists (fs : Fs) (n : String) : Bool :=
  fs.any (fun e => e.name == n)

/-- Zip archive name for a session, `f"classified_images_{session_id}.zip"`. -/
def zipNameOf (session_id : String) : String :=
  "classified_images_" ++ session_id ++ ".zip"

/-- Writing a plain file named `n` under the output root (the
`zipfile.ZipFile(zip_path, 'w', ...)` creation): any prior entry of that
name is replaced by a plain file. -/
def fsWrite (fs : Fs) (n : String) : Fs :=
  fs.filter (fun e => !(e.name == n)) ++ [{ name := n, isDir := false }]

/-- Response of the download endpoint, together with the output root
listing after the request. -/
structure DownloadResponse where
  status : Nat
  jsonError : Option String
  sentFile : Option String
  fs : Fs
deriving Repr

/-- The /download/<session_id> endpoint of src/backend/app.py lines
157-186: 404 with `{"error": "Session not found"}` when
`os.path.exists(session_dir)` is false; otherwise write the zip archive
into the output root and send it with status 200. -/
def download (fs : Fs) (session_id : String) : DownloadResponse :=
  if pathExists fs session_id then
    let z := zipNameOf session_id
    { status := 200, jsonError := none, sentFile := some z, fs := fsWrite fs z }
  else
    { status := 404, jsonError := some "Session not found", sentFile := none, fs := fs }

/-- The /sessions endpoint of src/backend/app.py lines 189-202: the names of
the entries under the output root that are directories. -/
def list_sessions (fs : Fs) : List String :=
  (fs.filter (fun e => e.isDir)).map FsEntry.name

/-! Helper lemmas about the embedding. -/

/-- A successful Python subscript returns an element of the list. -/
lemma pyGetItem_ok_mem {l : List String} {i : Int} {c : String}
    (h : pyGetItem l i = Except.ok c) : c ∈ l := by
  simp only [pyGetItem] at h
  by_cases h0 : (0 : Int) ≤ (if i < 0 then i + l.length else i)
  · rw [if_pos h0] at h
    cases hg : l.get? (if i < 0 then i + l.length else i).toNat with
    | none => rw [hg] at h; exact absurd h (by simp)
    | some v =>
      rw [hg] at h
      cases h
      exact List.get?_mem hg
  · rw [if_neg h0] at h
    exact absurd h (by simp)

/-- Every index in the Python-valid range `-len l ≤ i < len l` succeeds. -/
lemma pyGetItem_ok_of_range {l : List String} {i : Int}
    (h₁ : -(l.length : Int) ≤ i) (h₂ : i < l.length) :
    ∃ c, pyGetItem l i = Except.ok c := by
  simp only [pyGetItem]
  have h0 : (0 : Int) ≤ (if i < 0 then i + l.length else i) := by
    split <;> omega
  rw [if_pos h0]
  have hlt : (if i < 0 then i + l.length else i).toNat < l.length := by
    split <;> omega
  rw [List.get?_eq_get hlt]
  exact ⟨_, rfl⟩

/-- Every index outside the Python-valid range raises IndexError. -/
lemma pyGetItem_err_of_range {l : List String} {i : Int}
    (h : i < -(l.length : Int) ∨ (l.length : Int) ≤ i) :
    pyGetItem l i = Except.error "list index out of range" := by
  simp only [pyGetItem]
  rcases h with h | h
  · have h0 : ¬ (0 : Int) ≤ (if i < 0 then i + l.length else i) := by
      split <;> omega
    rw [if_neg h0]
  · have h0 : (0 : Int) ≤ (if i < 0 then i + l.length else i) := by
      split <;> omega
    rw [if_pos h0]
    have hge : l.length ≤ (if i < 0 then i + l.length else i).toNat := by
      split <;> omega
    rw [List.get?_eq_none.mpr hge]

/-- No entry of the label table is the sentinel string "error". -/
lemma cifar_classes_no_error : ∀ c ∈ CIFAR10_CLASSES, c ≠ "error" := by decide

/-- A successful backend per-image pipeline got its class from the label
table. -/
lemma imagePipelineBackend_ok_mem {env : ImageEnv} {fn sid cls path : String}
    (h : imagePipelineBackend env fn sid = Except.ok (cls, path)) :
    cls ∈ CIFAR10_CLASSES := by
  unfold imagePipelineBackend at h
  cases hd : env.decode with
  | error e => rw [hd] at h; exact absurd h (by simp)
  | ok u =>
    rw [hd] at h
    cases hp : env.preprocess with
    | error e => rw [hp] at h; exact absurd h (by simp)
    | ok v =>
      rw [hp] at h
      cases hi : env.infer with
      | error e => rw [hi] at h; exact absurd h (by simp)
      | ok p =>
        obtain ⟨idx, conf⟩ := p
        rw [hi] at h
        dsimp only at h
        cases hl : labelOf idx with
        | error e => rw [hl] at h; exact absurd h (by simp)
        | ok c =>
          rw [hl] at h
          dsimp only at h
          cases hs : env.save with
          | error e => rw [hs] at h; exact absurd h (by simp)
          | ok w =>
            rw [hs] at h
            simp only [Except.ok.injEq, Prod.mk.injEq] at h
            exact h.1 ▸ pyGetItem_ok_mem hl

/-- A successful serverless per-image pipeline got its class from the label
table. -/
lemma imagePipelineApi_ok_mem {env : ImageEnv} {cls : String} {conf : ℚ}
    (h : imagePipelineApi env = Except.ok (cls, conf)) :
    cls ∈ CIFAR10_CLASSES := by
  unfold imagePipelineApi at h
  cases hd : env.decode with
  | error e => rw [hd] at h; exact absurd h (by simp)
  | ok u =>
    rw [hd] at h
    cases hp : env.preprocess with
    | error e => rw [hp] at h; exact absurd h (by simp)
    | ok v =>
      rw [hp] at h
      cases hi : env.infer with
      | error e => rw [hi] at h; exact absurd h (by simp)
      | ok p =>
        obtain ⟨idx, rawConf⟩ := p
        rw [hi] at h
        dsimp only at h
        cases hl : labelOf idx with
        | error e => rw [hl] at h; exact absurd h (by simp)
        | ok c =>
          rw [hl] at h
          simp only [Except.ok.injEq, Prod.mk.injEq] at h
          exact h.1 ▸ pyGetItem_ok_mem hl

/-- Incrementing a key of the counts dict raises the value sum by one. -/
lemma sumValues_dictIncr (d : List (String × Nat)) (k : String) :
    sumValues (dictSet d k (dictGet d k + 1)) = sumValues d + 1 := by
  induction d with
  | nil => simp [dictSet, dictGet, sumValues]
  | cons p rest ih =>
    by_cases hp : p.1 = k
    · simp only [dictSet, dictGet, if_pos hp, sumValues, List.map_cons, List.sum_cons]
      omega
    · simp only [dictSet, dictGet, if_neg hp, sumValues, List.map_cons, List.sum_cons] at ih ⊢
      omega

/-- The class-count update adds one for a non-error result and nothing for
an error result. -/
lemma sumValues_updateCounts (counts : List (String × Nat))
    (r : ClassificationResult) :
    sumValues (updateCounts counts r)
      = sumValues counts + (if r.klass = "error" then 0 else 1) := by
  by_cases h : r.klass = "error"
  · simp [updateCounts, h]
  · simp [updateCounts, h, sumValues_dictIncr]

/-- The batch loop appends, in order, one result per non-empty-filename
input. -/
lemma batchLoop_results (piFn : UploadedFile → ClassificationResult)
    (files : List UploadedFile) :
    ∀ res cnts, (batchLoop piFn files res cnts).1
      = res ++ (files.filter nonEmptyName).map piFn := by
  induction files with
  | nil => intro res cnts; simp [batchLoop]
  | cons f rest ih =>
    intro res cnts
    by_cases hf : f.filename = ""
    · simp [batchLoop, hf, nonEmptyName, ih]
    · simp [batchLoop, hf, nonEmptyName, ih]

/-- The batch loop raises the value sum of the counts dict by exactly the
number of non-error results it appends. -/
lemma batchLoop_counts (piFn : UploadedFile → ClassificationResult)
    (files : List UploadedFile) :
    ∀ res cnts, sumValues (batchLoop piFn files res cnts).2
      = sumValues cnts
        + ((files.filter nonEmptyName).map piFn).countP
            (fun r => !(r.klass == "error")) := by
  induction files with
  | nil => intro res cnts; simp [batchLoop]
  | cons f rest ih =>
    intro res cnts
    by_cases hf : f.filename = ""
    · simp [batchLoop, hf, nonEmptyName, ih]
    · simp only [batchLoop, hf, nonEmptyName]
      rw [if_neg (by simp [hf])]
      rw [ih]
      rw [sumValues_updateCounts]
      have hfilter : (f :: rest).filter nonEmptyName
          = f :: rest.filter nonEmptyName := by
        simp [nonEmptyName, hf]
      rw [hfilter, List.map_cons, List.countP_cons]
      by_cases he : (piFn f).klass = "error"
      · simp [he]
      · simp only [he, if_neg (by simp [he] : ¬ ((piFn f).klass == "error") = true)]
        simp [he]
        omega

/-- A nonempty upload list makes the backend endpoint return 200 with the
assembled batch result. -/
lemma predictBackend_ok (files : List UploadedFile) (sid : String)
    (h : ¬ files.length = 0) :
    predictBackend files sid = Except.ok
      { results := (files.filter nonEmptyName).map (piBackend sid),
        class_counts := (batchLoop (piBackend sid) files [] []).2,
        total_images := ((files.filter nonEmptyName).map (piBackend sid)).length,
        session_id := some sid } := by
  simp [predictBackend, runPredict, h, batchLoop_results]

/-- A nonempty upload list makes the serverless endpoint return 200 with the
assembled batch result. -/
lemma predictApi_ok (files : List UploadedFile)
    (h : ¬ files.length = 0) :
    predictApi files = Except.ok
      { results := (files.filter nonEmptyName).map piApi,
        class_counts := (batchLoop piApi files [] []).2,
        total_images := ((files.filter nonEmptyName).map piApi).length,
        session_id := none } := by
  simp [predictApi, runPredict, h, batchLoop_results]

/-- A name is listed by /sessions exactly when a directory entry carries it. -/
lemma mem_list_sessions_iff (fs : Fs) (n : String) :
    n ∈ list_sessions fs ↔ ∃ e, e ∈ fs ∧ e.isDir = true ∧ e.name = n := by
  simp only [list_sessions, List.mem_map, List.mem_filter]
  constructor
  · rintro ⟨e, ⟨he, hd⟩, hn⟩
    exact ⟨e, he, hd, hn⟩
  · rintro ⟨e, he, hd, hn⟩
    exact ⟨e, ⟨he, hd⟩, hn⟩

/-- After writing a plain file named z, no directory entry named z remains,
so z is absent from the session list. -/
lemma not_mem_sessions_fsWrite (fs : Fs) (z : String) :
    z ∉ list_sessions (fsWrite fs z) := by
  intro hmem
  obtain ⟨e, he, hd, hn⟩ := (mem_list_sessions_iff _ _).mp hmem
  simp only [fsWrite, List.mem_append, List.mem_filter, List.mem_singleton] at he
  rcases he with ⟨_, hne⟩ | hz
  · rw [hn] at hne
    simp at hne
  · rw [hz] at hd
    simp at hd

/-! Claim theorems. -/

/-- C1: in both /predict handlers, for an input with a non-empty filename,
a failure raised by any stage of the per-image pipeline — decoding,
preprocessing, inference, the label lookup, or (backend) the persistence
step — makes predict_image return a result with class="error" and the
message in the error field, and the batch endpoint still returns one result
per non-empty-filename input in order, so the failure does not abort the
batch. -/
theorem claim_C1 (pre post : List UploadedFile) (f : UploadedFile)
    (sid e : String) (hf : f.filename ≠ "") :
    (imagePipelineBackend f.env f.filename sid = Except.error e →
      predict_image_backend f.env f.filename sid
        = { filename := f.filename, klass := "error", error := some e } ∧
      ∃ b, predictBackend (pre ++ f :: post) sid = Except.ok b ∧
        b.results
          = (pre.filter nonEmptyName).map (piBackend sid)
            ++ ({ filename := f.filename, klass := "error", error := some e }
                : ClassificationResult)
              :: (post.filter nonEmptyName).map (piBackend sid)) ∧
    (imagePipelineApi f.env = Except.error e →
      predict_image_api f.env f.filename
        = { filename := f.filename, klass := "error", error := some e } ∧
      ∃ b, predictApi (pre ++ f :: post) = Except.ok b ∧
        b.results
          = (pre.filter nonEmptyName).map piApi
            ++ ({ filename := f.filename, klass := "error", error := some e }
                : ClassificationResult)
              :: (post.filter nonEmptyName).map piApi) := by
  have hne : nonEmptyName f = true := by simp [nonEmptyName, hf]
  have hlen : ¬ (pre ++ f :: post).length = 0 := by simp
  have hsplit : (pre ++ f :: post).filter nonEmptyName
      = pre.filter nonEmptyName ++ f :: post.filter nonEmptyName := by
    rw [List.filter_append, List.filter_cons_of_pos hne]
  constructor
  · intro hp
    have h1 : predict_image_backend f.env f.filename sid
        = { filename := f.filename, klass := "error", error := some e } := by
      unfold predict_image_backend
      rw [hp]
    refine ⟨h1, _, predictBackend_ok (pre ++ f :: post) sid hlen, ?_⟩
    rw [hsplit, List.map_append, List.map_cons]
    rw [show piBackend sid f = predict_image_backend f.env f.filename sid from rfl, h1]
  · intro hp
    have h1 : predict_image_api f.env f.filename
        = { filename := f.filename, klass := "error", error := some e } := by
      unfold predict_image_api
      rw [hp]
    refine ⟨h1, _, predictApi_ok (pre ++ f :: post) hlen, ?_⟩
    rw [hsplit, List.map_append, List.map_cons]
    rw [show piApi f = predict_image_api f.env f.filename from rfl, h1]

/-- C2: in both /predict handlers, empty-filename inputs are skipped and
produce no result, and total_images equals the length of the results
sequence, which is the number of non-empty-filename inputs, whatever the
per-image outcomes. -/
theorem claim_C2 (files : List UploadedFile) (sid : String) :
    (∀ b, predictBackend files sid = Except.ok b →
      b.results = (files.filter nonEmptyName).map (piBackend sid) ∧
      b.total_images = b.results.length ∧
      b.total_images = (files.filter nonEmptyName).length) ∧
    (∀ b, predictApi files = Except.ok b →
      b.results = (files.filter nonEmptyName).map piApi ∧
      b.total_images = b.results.length ∧
      b.total_images = (files.filter nonEmptyName).length) := by
  by_cases h : files.length = 0
  · constructor
    · intro b hb
      rw [show predictBackend files sid = Except.error (400, "No images provided") from by
        simp [predictBackend, runPredict, h]] at hb
      exact absurd hb (by simp)
    · intro b hb
      rw [show predictApi files = Except.error (400, "No images provided") from by
        simp [predictApi, runPredict, h]] at hb
      exact absurd hb (by simp)
  · constructor
    · intro b hb
      rw [predictBackend_ok files sid h] at hb
      cases hb
      exact ⟨rfl, rfl, by simp⟩
    · intro b hb
      rw [predictApi_ok files h] at hb
      cases hb
      exact ⟨rfl, rfl, by simp⟩

/-- C3: in both /predict handlers, an error result leaves class_counts
untouched, and the sum of the values of class_counts equals the number of
results whose class is not "error". -/
theorem claim_C3 (files : List UploadedFile) (sid : String)
    (counts : List (String × Nat)) (r : ClassificationResult) :
    (r.klass = "error" → updateCounts counts r = counts) ∧
    (∀ b, predictBackend files sid = Except.ok b →
      sumValues b.class_counts
        = b.results.countP (fun x => !(x.klass == "error"))) ∧
    (∀ b, predictApi files = Except.ok b →
      sumValues b.class_counts
        = b.results.countP (fun x => !(x.klass == "error"))) := by
  refine ⟨fun h => by simp [updateCounts, h], ?_, ?_⟩
  · intro b hb
    by_cases h : files.length = 0
    · rw [show predictBackend files sid = Except.error (400, "No images provided") from by
        simp [predictBackend, runPredict, h]] at hb
      exact absurd hb (by simp)
    · rw [predictBackend_ok files sid h] at hb
      cases hb
      simp only
      rw [batchLoop_counts]
      simp [sumValues]
  · intro b hb
    by_cases h : files.length = 0
    · rw [show predictApi files = Except.error (400, "No images provided") from by
        simp [predictApi, runPredict, h]] at hb
      exact absurd hb (by simp)
    · rw [predictApi_ok files h] at hb
      cases hb
      simp only
      rw [batchLoop_counts]
      simp [sumValues]

/-- C4: every result of either predict_image variant is in exactly one of
two forms: class not "error" with no error field, or class "error" with
the error field populated. -/
theorem claim_C4 (env : ImageEnv) (fn sid : String) :
    ((predict_image_backend env fn sid).klass ≠ "error" ∧
       (predict_image_backend env fn sid).error = none ∨
     (predict_image_backend env fn sid).klass = "error" ∧
       ∃ e, (predict_image_backend env fn sid).error = some e) ∧
    ((predict_image_api env fn).klass ≠ "error" ∧
       (predict_image_api env fn).error = none ∨
     (predict_image_api env fn).klass = "error" ∧
       ∃ e, (predict_image_api env fn).error = some e) := by
  constructor
  · cases hp : imagePipelineBackend env fn sid with
    | error e =>
      right
      unfold predict_image_backend
      rw [hp]
      exact ⟨rfl, e, rfl⟩
    | ok p =>
      left
      obtain ⟨cls, path⟩ := p
      unfold predict_image_backend
      rw [hp]
      exact ⟨cifar_classes_no_error cls (imagePipelineBackend_ok_mem hp), rfl⟩
  · cases hp : imagePipelineApi env with
    | error e =>
      right
      unfold predict_image_api
      rw [hp]
      exact ⟨rfl, e, rfl⟩
    | ok p =>
      left
      obtain ⟨cls, conf⟩ := p
      unfold predict_image_api
      rw [hp]
      exact ⟨cifar_classes_no_error cls (imagePipelineApi_ok_mem hp), rfl⟩

/-- C5: the lazy load of get_model is an unguarded check-then-act, so two
callers that both pass the `_model is None` check before either assigns it
(schedule thread1-check, thread2-check, thread1-load, thread2-load from a
fresh process) each run torch.hub.load: the external load executes twice,
not once, although both callers finish; a fully sequential interleaving
does load exactly once. -/
theorem claim_C5 :
    (runSchedule [false, true, false, true] initLoadState).loads = 2 ∧
    (runSchedule [false, true, false, true] initLoadState).pc1 = ThreadPC.done ∧
    (runSchedule [false, true, false, true] initLoadState).pc2 = ThreadPC.done ∧
    ¬ (runSchedule [false, true, false, true] initLoadState).loads = 1 ∧
    (runSchedule [false, false, true, true] initLoadState).loads = 1 := by
  decide

/-- C6 counterexample: the transform of src/main.py does not use
std[0] = 0.2023 — on the all-zero image its channel-0 output differs from
(0 - mean[0]) / 0.2023. -/
theorem claim_C6_counterexample :
    transformMain zeroImage 0 0 0 ≠ ((0 : ℚ) - 4914/10000) / (2023/10000) := by
  norm_num [transformMain, normalizeWith, toTensor, zeroImage, meanC, stdMain]

/-- C6 amended: ToTensor scales pixel values into [0,1]; the backend and
serverless transform applies (scaled - mean[c]) / std[c] with
mean=[0.4914,0.4822,0.4465] and std=[0.2023,0.1994,0.2010], so the all-zero
image yields (0 - mean[c]) / std[c]; the src/main.py transform uses the same
mean but std=[0.2470,0.2435,0.2616], so its all-zero output is
(0 - mean[c]) / stdMain[c] instead. -/
theorem claim_C6_amended (img : Image32) (c : Fin 3) (i j : Fin 32)
    (h : img c i j ≤ 255) :
    (0 ≤ toTensor img c i j ∧ toTensor img c i j ≤ 1) ∧
    transformBackend img c i j = (toTensor img c i j - meanC c) / stdBackend c ∧
    transformBackend zeroImage c i j = ((0 : ℚ) - meanC c) / stdBackend c ∧
    transformMain zeroImage c i j = ((0 : ℚ) - meanC c) / stdMain c := by
  refine ⟨⟨?_, ?_⟩, rfl, ?_, ?_⟩
  · exact div_nonneg (Nat.cast_nonneg _) (by norm_num)
  · unfold toTensor
    rw [div_le_one (by norm_num : (0 : ℚ) < 255)]
    exact_mod_cast h
  · simp [transformBackend, normalizeWith, toTensor, zeroImage]
  · simp [transformMain, normalizeWith, toTensor, zeroImage]

/-- C7 counterexample: the index -1 is outside 0..9, yet the label lookup
does not fail: Python subscripting wraps negative indices, so it returns
"truck". -/
theorem claim_C7_counterexample :
    labelOf (-1) = Except.ok "truck" ∧
    ¬ (0 ≤ (-1 : Int) ∧ (-1 : Int) ≤ 9) := by
  constructor
  · rfl
  · decide

/-- C7 amended: labelOf follows Python subscript semantics on the 10-entry
table: every index in -10..9 returns a class name (negative indices count
from the back), and exactly the indices ≥ 10 or < -10 fail with the
out-of-range error. -/
theorem claim_C7_amended (i : Int) :
    (-10 ≤ i ∧ i < 10 →
      ∃ c, labelOf i = Except.ok c ∧ c ∈ CIFAR10_CLASSES) ∧
    (i < -10 ∨ 10 ≤ i →
      labelOf i = Except.error "list index out of range") := by
  have hlen : (CIFAR10_CLASSES.length : Int) = 10 := by decide
  constructor
  · rintro ⟨h₁, h₂⟩
    obtain ⟨c, hc⟩ :=
      pyGetItem_ok_of_range (l := CIFAR10_CLASSES) (i := i)
        (by omega) (by omega)
    exact ⟨c, hc, pyGetItem_ok_mem hc⟩
  · intro h
    exact pyGetItem_err_of_range (l := CIFAR10_CLASSES) (by omega)

/-- C8: the preprocessing pipeline is deterministic: under the same
decode function (PIL decoding, RGB conversion and the deterministic resize
are external and stateless), equal byte buffers normalize to equal
tensors — the embedded pipeline is a pure function of its input, as the
source transform holds no mutable state and draws no randomness. -/
theorem claim_C8 (decode : List Nat → Except String Image32)
    (b₁ b₂ : List Nat) (h : b₁ = b₂) :
    normalizeBytes decode b₁ = normalizeBytes decode b₂ := by
  rw [h]

/-- C9 counterexample: the download endpoint tests os.path.exists, which is
also true for a plain file.  With the output root holding only the zip
archive left by an earlier download of session "A", requesting the session
id "classified_images_A.zip" finds no session directory yet returns 200,
not 404. -/
theorem claim_C9_counterexample :
    (([{ name := "classified_images_A.zip", isDir := false }] : Fs).any
        (fun e => e.name == "classified_images_A.zip" && e.isDir) = false) ∧
    (download [{ name := "classified_images_A.zip", isDir := false }]
        "classified_images_A.zip").status = 200 ∧
    ¬ (download [{ name := "classified_images_A.zip", isDir := false }]
        "classified_images_A.zip").status = 404 := by
  decide

/-- C9 amended: for every session id with no entry of any kind (directory
or file) under the output root, the download endpoint returns 404 with
body error "Session not found" and never 200; a plain file bearing the
requested name (such as a previously written zip archive) defeats the
check, which is what the counterexample exhibits. -/
theorem claim_C9_amended (fs : Fs) (sid : String)
    (h : pathExists fs sid = false) :
    (download fs sid).status = 404 ∧
    (download fs sid).jsonError = some "Session not found" ∧
    ¬ (download fs sid).status = 200 := by
  simp [download, h]

/-- C10: the /sessions endpoint returns exactly the names of the directory
entries under the output root, and a successful download writes its zip
archive as a plain file there, so the archive's name never appears in the
session list afterwards. -/
theorem claim_C10 (fs : Fs) (sid n : String) :
    (n ∈ list_sessions fs ↔ ∃ e, e ∈ fs ∧ e.isDir = true ∧ e.name = n) ∧
    ((download fs sid).status = 200 →
      (download fs sid).fs = fsWrite fs (zipNameOf sid) ∧
      zipNameOf sid ∉ list_sessions ((download fs sid).fs)) := by
  refine ⟨mem_list_sessions_iff fs n, ?_⟩
  intro hst
  by_cases h : pathExists fs sid = true
  · have hdl : download fs sid
        = { status := 200, jsonError := none, sentFile := some (zipNameOf sid),
            fs := fsWrite fs (zipNameOf sid) } := by
      simp [download, h]
    rw [hdl]
    exact ⟨rfl, not_mem_sessions_fsWrite fs (zipNameOf sid)⟩
  · rw [show download fs sid
        = { status := 404, jsonError := some "Session not found",
            sentFile := none, fs := fs } from by
      simp [download, h, Bool.not_eq_true]] at hst
    exact absurd hst (by simp)

/-! Concrete inputs for the witnesses. -/

/-- Oracle outcomes of a valid image whose inference picks index 3 ("cat")
with probability 0.9. -/
def envOk : ImageEnv :=
  { decode := Except.ok (), preprocess := Except.ok (),
    infer := Except.ok (3, 9/10), save := Except.ok () }

/-- Oracle outcomes of a corrupt byte buffer: decoding raises. -/
def envBad : ImageEnv :=
  { decode := Except.error "cannot identify image file",
    preprocess := Except.ok (), infer := Except.ok (0, 0),
    save := Except.ok () }

/-- A three-part upload: an empty filename, a corrupt file, a valid cat
image. -/
def wfiles : List UploadedFile :=
  [{ filename := "", env := envOk },
   { filename := "bad.bin", env := envBad },
   { filename := "cat.jpg", env := envOk }]

/-- The batch result the backend endpoint produces on `wfiles`. -/
def wbatch : BatchResult :=
  { results :=
      [{ filename := "bad.bin", klass := "error",
         error := some "cannot identify image file" },
       { filename := "cat.jpg", klass := "cat",
         saved_path := some "classified_images/s/cat/cat.jpg" }],
    class_counts := [("cat", 1)],
    total_images := 2,
    session_id := some "s" }

/-- Witness for C1: the corrupt upload yields the error-shaped result in
both variants. -/
theorem claim_C1_witness :
    predict_image_backend envBad "bad.bin" "s"
      = { filename := "bad.bin", klass := "error",
          error := some "cannot identify image file" } ∧
    predict_image_api envBad "bad.bin"
      = { filename := "bad.bin", klass := "error",
          error := some "cannot identify image file" } := by
  have h := claim_C1 [] [{ filename := "cat.jpg", env := envOk }]
    { filename := "bad.bin", env := envBad } "s" "cannot identify image file"
    (by decide)
  exact ⟨(h.1 rfl).1, (h.2 rfl).1⟩

/-- Witness for C2 on the concrete three-part upload: the empty filename is
skipped and total_images counts the two processed inputs. -/
theorem claim_C2_witness :
    predictBackend wfiles "s" = Except.ok wbatch ∧
    wbatch.total_images = wbatch.results.length ∧
    wbatch.total_images = (wfiles.filter nonEmptyName).length := by
  have hb : predictBackend wfiles "s" = Except.ok wbatch := by rfl
  exact ⟨hb, ((claim_C2 wfiles "s").1 wbatch hb).2.1,
    ((claim_C2 wfiles "s").1 wbatch hb).2.2⟩

/-- Witness for C3 on the concrete three-part upload: the error result does
not touch the counts and the value sum matches the one non-error result. -/
theorem claim_C3_witness :
    updateCounts [("cat", 1)]
      { filename := "x", klass := "error", error := some "boom" }
      = [("cat", 1)] ∧
    sumValues wbatch.class_counts
      = wbatch.results.countP (fun x => !(x.klass == "error")) := by
  have hb : predictBackend wfiles "s" = Except.ok wbatch := by rfl
  exact ⟨(claim_C3 wfiles "s" [("cat", 1)]
            { filename := "x", klass := "error", error := some "boom" }).1 rfl,
         (claim_C3 wfiles "s" [("cat", 1)]
            { filename := "x", klass := "error", error := some "boom" }).2.1
           wbatch hb⟩

/-- Witness for C6 at the all-zero image, channel 0, pixel (0,0). -/
theorem claim_C6_witness :
    (0 ≤ toTensor zeroImage 0 0 0 ∧ toTensor zeroImage 0 0 0 ≤ 1) ∧
    transformBackend zeroImage 0 0 0
      = (toTensor zeroImage 0 0 0 - meanC 0) / stdBackend 0 ∧
    transformBackend zeroImage 0 0 0 = ((0 : ℚ) - meanC 0) / stdBackend 0 ∧
    transformMain zeroImage 0 0 0 = ((0 : ℚ) - meanC 0) / stdMain 0 :=
  claim_C6_amended zeroImage 0 0 0 (by decide)

/-- Witness for C7 at the in-range index 3 and the out-of-range index 10. -/
theorem claim_C7_witness :
    (∃ c, labelOf 3 = Except.ok c ∧ c ∈ CIFAR10_CLASSES) ∧
    labelOf 10 = Except.error "list index out of range" :=
  ⟨(claim_C7_amended 3).1 (by decide), (claim_C7_amended 10).2 (by decide)⟩

/-- Witness for C8 at a concrete decoder and byte buffer. -/
theorem claim_C8_witness :
    normalizeBytes (fun _ => Except.ok zeroImage) [0, 1, 2]
      = normalizeBytes (fun _ => Except.ok zeroImage) [0, 1, 2] :=
  claim_C8 (fun _ => Except.ok zeroImage) [0, 1, 2] [0, 1, 2] rfl

/-- Witness for C9 at an empty output root and a fresh session id. -/
theorem claim_C9_witness :
    pathExists [] "20240101_000000" = false ∧
    (download [] "20240101_000000").status = 404 ∧
    (download [] "20240101_000000").jsonError = some "Session not found" ∧
    ¬ (download [] "20240101_000000").status = 200 := by
  have h := claim_C9_amended [] "20240101_000000" (by decide)
  exact ⟨by decide, h.1, h.2.1, h.2.2⟩

/-- Witness for C10 at an output root holding one session directory. -/
theorem claim_C10_witness :
    (download [{ name := "s1", isDir := true }] "s1").status = 200 ∧
    (download [{ name := "s1", isDir := true }] "s1").fs
      = fsWrite [{ name := "s1", isDir := true }] (zipNameOf "s1") ∧
    zipNameOf "s1"
      ∉ list_sessions ((download [{ name := "s1", isDir := true }] "s1").fs) := by
  have h := (claim_C10 [{ name := "s1", isDir := true }] "s1" "s1").2 (by decide)
  exact ⟨by decide, h.1, h.2⟩

end Cifar
